import Mathlib

/-!
Shallow embedding of the tool registry and dispatch subsystem of the
`mcp-telegram` repository (files `src/mcp_telegram/server.py` and
`src/mcp_telegram/tools.py`), together with proofs settling the frozen
claims about its specification.

Python values arriving as tool-call arguments are modelled by `JsonValue`;
pydantic (v2, lax mode) construction of a `ToolArgs` subclass from keyword
arguments is modelled by `constructClass`; the `@cache`-decorated generator
`enumerate_available_tools` together with the module-level
`dict(enumerate_available_tools())` is modelled by `buildRegistry` over an
explicit generator-cache state; the dispatcher `call_tool` is modelled by
`call_tool` with the registered handlers abstracted as an oracle parameter.
-/

/-- A JSON-like Python value, the possible shape of an element of the
`arguments` payload handed to `call_tool` (which is annotated `t.Any`). -/
inductive JsonValue where
  | null
  | bool (b : Bool)
  | int (n : Int)
  | str (s : String)
  | arr (items : List JsonValue)
  | obj (fields : List (String × JsonValue))

/-- Whether the payload is a key-value mapping, i.e. would pass Python's
`isinstance(arguments, dict)` check at the top of `call_tool`. -/
def JsonValue.isObj : JsonValue → Bool
  | .obj _ => true
  | _ => false

/-- A value of an `int | str` union field (`ManageUser.user_id`) or an
element of a `list[str | int]` field (`CreateGroup.users` etc.). -/
inductive SIVal where
  | i (n : Int)
  | s (v : String)
deriving DecidableEq, Repr

/-- A validated field value stored on a constructed pydantic model
instance. `pyNone` is Python's `None` (the value of an optional field left
at, or set to, `None`). -/
inductive FieldVal where
  | int (n : Int)
  | str (s : String)
  | bool (b : Bool)
  | pyNone
  | si (v : SIVal)
  | list (l : List SIVal)
deriving DecidableEq, Repr

/-- The field annotations that occur on the `ToolArgs` subclasses in
`tools.py`: `int`, `str`, `bool`, `int | None`, `str | None`,
`bool | None`, `int | str`, `list[str | int]`. -/
inductive FieldType where
  | int
  | str
  | bool
  | optInt
  | optStr
  | optBool
  | intOrStr
  | listSI
deriving DecidableEq, Repr

/-- Parse a list of decimal digit characters into a number (`none` when
empty or when any character is not a digit). -/
def parseDigits : List Char → Option Nat
  | [] => none
  | cs => cs.foldl
      (fun acc c =>
        match acc with
        | Option.none => none
        | Option.some n => if c.isDigit then some (n * 10 + (c.toNat - 48)) else none)
      (some 0)

/-- Parse a string as a (possibly signed) decimal integer, the way
pydantic lax mode parses a string supplied for an `int` field. -/
def parseIntString (s : String) : Option Int :=
  match s.data with
  | '-' :: rest => (parseDigits rest).map fun n => -(n : Int)
  | '+' :: rest => (parseDigits rest).map fun n => (n : Int)
  | cs => (parseDigits cs).map fun n => (n : Int)

/-- Lower-case every character of a string. -/
def lowerString (s : String) : String :=
  ⟨s.data.map Char.toLower⟩

/-- Pydantic v2 lax validation of an `int` field: accepts an integer, and
coerces a string that parses as an integer. -/
def decodeInt : JsonValue → Option FieldVal
  | .int n => some (.int n)
  | .str s => (parseIntString s).map .int
  | _ => none

/-- Pydantic v2 lax validation of a `str` field: accepts exactly strings
(pydantic v2 does not coerce numbers to strings). -/
def decodeStr : JsonValue → Option FieldVal
  | .str s => some (.str s)
  | _ => none

/-- Pydantic v2 lax validation of a `bool` field: accepts a boolean, the
integers 0 and 1, and the usual boolean-like strings. -/
def decodeBool : JsonValue → Option FieldVal
  | .bool b => some (.bool b)
  | .int n => if n = 0 then some (.bool false) else if n = 1 then some (.bool true) else none
  | .str s =>
      let t := lowerString s
      if t = "true" ∨ t = "t" ∨ t = "yes" ∨ t = "y" ∨ t = "on" ∨ t = "1" then
        some (.bool true)
      else if t = "false" ∨ t = "f" ∨ t = "no" ∨ t = "n" ∨ t = "off" ∨ t = "0" then
        some (.bool false)
      else none
  | _ => none

/-- Validation of one element of a `list[str | int]` field (exact union
member match: an integer stays an integer, a string stays a string). -/
def decodeSI : JsonValue → Option SIVal
  | .int n => some (.i n)
  | .str s => some (.s s)
  | _ => none

/-- Pydantic v2 validation of a value against a field annotation.
Optional (`X | None`) fields additionally accept `None`. -/
def decodeField : FieldType → JsonValue → Option FieldVal
  | .int, v => decodeInt v
  | .str, v => decodeStr v
  | .bool, v => decodeBool v
  | .optInt, .null => some .pyNone
  | .optInt, v => decodeInt v
  | .optStr, .null => some .pyNone
  | .optStr, v => decodeStr v
  | .optBool, .null => some .pyNone
  | .optBool, v => decodeBool v
  | .intOrStr, .int n => some (.si (.i n))
  | .intOrStr, .str s => some (.si (.s s))
  | .intOrStr, _ => none
  | .listSI, .arr items => (items.mapM decodeSI).map .list
  | .listSI, _ => none

/-- One declared field of a `ToolArgs` subclass: its name, its annotation,
and its declared default value (`none` means the field is required). -/
structure FieldSpec where
  name : String
  ty : FieldType
  default : Option FieldVal
deriving DecidableEq, Repr

/-- The kind of a single pydantic validation error entry. -/
inductive ValKind where
  | missing
  | wrongType
deriving DecidableEq, Repr

/-- The per-field validation errors pydantic collects when constructing a
model from keyword arguments: a required field absent from the arguments
yields a `missing` entry naming the field, and a supplied value that fails
validation against the field annotation yields a `wrongType` entry naming
the field.  Entries appear in field-declaration order. -/
def fieldErrors : List FieldSpec → List (String × JsonValue) → List (String × ValKind)
  | [], _ => []
  | sp :: rest, kvs =>
      match kvs.lookup sp.name with
      | Option.none =>
          if sp.default.isSome then fieldErrors rest kvs
          else (sp.name, ValKind.missing) :: fieldErrors rest kvs
      | Option.some v =>
          match decodeField sp.ty v with
          | Option.some _ => fieldErrors rest kvs
          | Option.none => (sp.name, ValKind.wrongType) :: fieldErrors rest kvs

/-- The validated field values of a successfully constructed instance:
each declared field gets the decoded supplied value, or its declared
default when omitted.  (Only meaningful when `fieldErrors` is empty.) -/
def fieldValues : List FieldSpec → List (String × JsonValue) → List (String × FieldVal)
  | [], _ => []
  | sp :: rest, kvs =>
      match kvs.lookup sp.name with
      | Option.none =>
          match sp.default with
          | Option.some d => (sp.name, d) :: fieldValues rest kvs
          | Option.none => fieldValues rest kvs
      | Option.some v =>
          match decodeField sp.ty v with
          | Option.some fv => (sp.name, fv) :: fieldValues rest kvs
          | Option.none => fieldValues rest kvs

/-- A constructed pydantic model instance: its validated fields in
declaration order.  Two instances are equal exactly when their validated
fields are equal, matching pydantic `BaseModel.__eq__`. -/
def Instance : Type := List (String × FieldVal)

instance : DecidableEq Instance := by
  unfold Instance
  infer_instance

/-- A Python exception raised inside the `try` block of `call_tool`:
either a pydantic `ValidationError` from constructing the argument
instance (carrying the tool name and the per-field errors), a `KeyError`
from the module-dict lookup in `tool_args`, or any exception raised by the
tool handler itself (carrying its message, `str(e)`). -/
inductive PyExc where
  | validationError (tool : String) (errs : List (String × ValKind))
  | keyError (name : String)
  | handlerError (msg : String)
deriving DecidableEq, Repr

/-- A class visible at module scope in `tools.py`, as returned by
`inspect.getmembers(tools, inspect.isclass)`: its name, whether it is a
subclass of `ToolArgs`, whether it is `ToolArgs` itself, its docstring
(`__doc__`, empty for the non-tool classes where it is irrelevant), and
its declared pydantic fields. -/
structure PyClass where
  name : String
  isToolArgsSubclass : Bool
  isToolArgsItself : Bool
  doc : String
  fields : List FieldSpec
deriving DecidableEq, Repr

/-- Pydantic construction of a `ToolArgs` subclass from keyword arguments
(`cls(**arguments)`): collect the validation errors; if any, raise
`ValidationError` naming the offending fields, otherwise produce the
instance with defaults applied.  With the default `ConfigDict()`
(`extra="ignore"`), keyword arguments not matching a declared field are
silently ignored. -/
def constructClass (c : PyClass) (kvs : List (String × JsonValue)) : Except PyExc Instance :=
  match fieldErrors c.fields kvs with
  | [] => .ok (fieldValues c.fields kvs)
  | errs => .error (.validationError c.name errs)

/-- Helper for declaring a leaf tool class (a genuine `ToolArgs` subclass
distinct from `ToolArgs` itself).  Docstring text is transcribed from the
source with lines joined by newlines (Python source indentation elided). -/
def toolClass (name doc : String) (fields : List FieldSpec) : PyClass :=
  ⟨name, true, false, doc, fields⟩

/-- Helper for a module-scope class that is not a `ToolArgs` subclass
(classes imported into `tools.py`: pydantic, mcp and telethon classes). -/
def importedClass (name : String) : PyClass :=
  ⟨name, false, false, "", []⟩

/-- The shared base class `ToolArgs` itself: a subclass of itself, and
excluded from the scan by the `tool_args != tools.ToolArgs` test. -/
def toolArgsBase : PyClass :=
  ⟨"ToolArgs", true, true, "", []⟩

def createChannelClass : PyClass :=
  toolClass "CreateChannel"
    "Create a new Telegram channel.\n\nCreates a broadcast channel with specified title and optional description.\nYou can make it private and add users immediately."
    [⟨"title", .str, none⟩, ⟨"about", .optStr, some .pyNone⟩,
     ⟨"private", .bool, some (.bool false)⟩, ⟨"users", .listSI, some (.list [])⟩,
     ⟨"ttl_period", .optInt, some .pyNone⟩]

def createGroupClass : PyClass :=
  toolClass "CreateGroup"
    "Create a new Telegram group.\n\nCreates a new group with specified title and optional description.\nYou can make it a supergroup (recommended for larger groups) and add users immediately."
    [⟨"title", .str, none⟩, ⟨"users", .listSI, some (.list [])⟩,
     ⟨"about", .optStr, some .pyNone⟩, ⟨"supergroup", .bool, some (.bool true)⟩,
     ⟨"ttl_period", .optInt, some .pyNone⟩]

def deleteMessageClass : PyClass :=
  toolClass "DeleteMessage"
    "Delete a specific message from a dialog, chat, or channel.\n\nRequires both the dialog_id and the specific message_id to delete."
    [⟨"dialog_id", .int, none⟩, ⟨"message_id", .int, none⟩]

def downloadMediaClass : PyClass :=
  toolClass "DownloadMedia"
    "Download media from a message.\n\nDownloads the media attachment from a specific message and saves it to a specified path.\nIf no path is provided, the file will be saved with its original name in the current directory."
    [⟨"dialog_id", .int, none⟩, ⟨"message_id", .int, none⟩,
     ⟨"output_path", .optStr, some .pyNone⟩, ⟨"force_document", .bool, some (.bool false)⟩]

def editMessageClass : PyClass :=
  toolClass "EditMessage"
    "Edit an existing message in a dialog, chat, or channel.\n\nRequires the dialog_id, message_id, and the new text to replace the original message."
    [⟨"dialog_id", .int, none⟩, ⟨"message_id", .int, none⟩, ⟨"new_text", .str, none⟩]

def forwardMessageClass : PyClass :=
  toolClass "ForwardMessage"
    "Forward a message from one chat to another.\n\nRequires the source chat ID, message ID to forward, and the destination chat ID.\nOptionally, you can disable notification for the forwarded message."
    [⟨"from_dialog_id", .int, none⟩, ⟨"message_id", .int, none⟩,
     ⟨"to_dialog_id", .int, none⟩, ⟨"silent", .bool, some (.bool false)⟩]

def getBannedUsersClass : PyClass :=
  toolClass "GetBannedUsers"
    "Get a list of banned users in a chat.\n\nRetrieves all users that are currently banned from a group or channel."
    [⟨"chat_id", .int, none⟩, ⟨"limit", .int, some (.int 100)⟩]

def getChatInviteLinkClass : PyClass :=
  toolClass "GetChatInviteLink"
    "Get or create an invite link for a chat.\n\nGenerates a new invite link or retrieves the existing one.\nCan optionally create a new link even if one exists."
    [⟨"chat_id", .int, none⟩, ⟨"new_link", .bool, some (.bool false)⟩,
     ⟨"expire_date", .optInt, some .pyNone⟩, ⟨"usage_limit", .optInt, some .pyNone⟩]

def getChatMembersClass : PyClass :=
  toolClass "GetChatMembers"
    "Get a list of chat members.\n\nRetrieves members of a group or channel with their roles (admin, member, etc.).\nCan filter by role and search by name."
    [⟨"chat_id", .int, none⟩, ⟨"filter", .str, some (.str "all")⟩,
     ⟨"search", .optStr, some .pyNone⟩, ⟨"limit", .int, some (.int 100)⟩]

def getChatPermissionsClass : PyClass :=
  toolClass "GetChatPermissions"
    "Get chat permissions.\n\nRetrieves the current permission settings for a group or channel."
    [⟨"chat_id", .int, none⟩]

def getMessageReactionsClass : PyClass :=
  toolClass "GetMessageReactions"
    "Get all reactions for a specific message.\n\nReturns a list of reactions and the count of each reaction on the message."
    [⟨"dialog_id", .int, none⟩, ⟨"message_id", .int, none⟩]

def inviteToChatClass : PyClass :=
  toolClass "InviteToChat"
    "Invite users to a chat.\n\nInvites one or more users to a group or channel.\nUsers can be specified by username or user ID."
    [⟨"chat_id", .int, none⟩, ⟨"users", .listSI, none⟩]

def leaveChatClass : PyClass :=
  toolClass "LeaveChat"
    "Leave a chat.\n\nAllows the bot to leave a group, channel, or chat."
    [⟨"chat_id", .int, none⟩]

def listDialogsClass : PyClass :=
  toolClass "ListDialogs"
    "List available dialogs, chats and channels."
    [⟨"unread", .bool, some (.bool false)⟩, ⟨"archived", .bool, some (.bool false)⟩,
     ⟨"ignore_pinned", .bool, some (.bool false)⟩]

def listMessagesClass : PyClass :=
  toolClass "ListMessages"
    "List messages in a given dialog, chat or channel. The messages are listed in order from newest to oldest.\n\nIf `unread` is set to `True`, only unread messages will be listed. Once a message is read, it will not be\nlisted again.\n\nIf `limit` is set, only the last `limit` messages will be listed. If `unread` is set, the limit will be\nthe minimum between the unread messages and the limit."
    [⟨"dialog_id", .int, none⟩, ⟨"unread", .bool, some (.bool false)⟩,
     ⟨"limit", .int, some (.int 100)⟩]

def manageUserClass : PyClass :=
  toolClass "ManageUser"
    "Manage a user in a chat (kick, ban, or unban).\n\nAllows kicking or banning users from a group or channel.\nCan also be used to unban previously banned users."
    [⟨"chat_id", .int, none⟩, ⟨"user_id", .intOrStr, none⟩,
     ⟨"action", .str, none⟩, ⟨"ban_duration", .optInt, some .pyNone⟩]

def pinMessageClass : PyClass :=
  toolClass "PinMessage"
    "Pin a message in a chat.\n\nRequires the chat ID and message ID to pin.\nOptionally, you can disable notification for the pinned message\nand pin the message silently."
    [⟨"dialog_id", .int, none⟩, ⟨"message_id", .int, none⟩,
     ⟨"notify", .bool, some (.bool true)⟩, ⟨"pm_oneside", .bool, some (.bool false)⟩]

def reactToMessageClass : PyClass :=
  toolClass "ReactToMessage"
    "Add or remove a reaction to/from a message.\n\nYou can react with either an emoji or a custom emoji ID.\nSet add_reaction to False to remove the reaction instead of adding it."
    [⟨"dialog_id", .int, none⟩, ⟨"message_id", .int, none⟩, ⟨"emoji", .str, none⟩,
     ⟨"add_reaction", .bool, some (.bool true)⟩, ⟨"big", .bool, some (.bool false)⟩]

def replyToMessageClass : PyClass :=
  toolClass "ReplyToMessage"
    "Reply to a specific message in a chat.\n\nCreates a new message that is a reply to the specified message.\nYou can optionally send the reply silently (without notification)."
    [⟨"dialog_id", .int, none⟩, ⟨"message_id", .int, none⟩, ⟨"text", .str, none⟩,
     ⟨"silent", .bool, some (.bool false)⟩]

def sendDocumentClass : PyClass :=
  toolClass "SendDocument"
    "Send a document/file to a chat.\n\nAccepts a local file path or URL.\nYou can optionally include a caption and send it silently.\nThe file will be sent as a document, preserving its original format."
    [⟨"dialog_id", .int, none⟩, ⟨"file_path", .str, none⟩,
     ⟨"caption", .optStr, some .pyNone⟩, ⟨"silent", .bool, some (.bool false)⟩,
     ⟨"reply_to", .optInt, some .pyNone⟩, ⟨"thumbnail", .optStr, some .pyNone⟩]

def sendGIFClass : PyClass :=
  toolClass "SendGIF"
    "Send a GIF to a chat.\n\nAccepts a local file path or URL to a GIF file.\nThe file will be sent as an animated GIF (video note in Telegram)."
    [⟨"dialog_id", .int, none⟩, ⟨"gif_path", .str, none⟩,
     ⟨"caption", .optStr, some .pyNone⟩, ⟨"reply_to", .optInt, some .pyNone⟩,
     ⟨"silent", .bool, some (.bool false)⟩]

def sendMessageClass : PyClass :=
  toolClass "SendMessage"
    "Send a message to a specified dialog, chat, or channel.\n\nAllows sending text messages to a specified chat identified by its dialog_id.\nThe message will be sent as plain text."
    [⟨"dialog_id", .int, none⟩, ⟨"message", .str, none⟩]

def sendPhotoClass : PyClass :=
  toolClass "SendPhoto"
    "Send a photo to a chat.\n\nAccepts a local file path or URL to the image.\nYou can optionally include a caption and send it silently."
    [⟨"dialog_id", .int, none⟩, ⟨"photo_path", .str, none⟩,
     ⟨"caption", .optStr, some .pyNone⟩, ⟨"silent", .bool, some (.bool false)⟩,
     ⟨"reply_to", .optInt, some .pyNone⟩]

def sendStickerClass : PyClass :=
  toolClass "SendSticker"
    "Send a sticker to a chat.\n\nAccepts either a sticker file path or a sticker ID from a sticker set.\nFor animated stickers, make sure the file is in .tgs format.\nFor video stickers, make sure the file is in .webm format."
    [⟨"dialog_id", .int, none⟩, ⟨"sticker_path", .str, none⟩,
     ⟨"reply_to", .optInt, some .pyNone⟩, ⟨"silent", .bool, some (.bool false)⟩]

def sendVideoClass : PyClass :=
  toolClass "SendVideo"
    "Send a video to a chat.\n\nAccepts a local file path or URL to a video file.\nYou can optionally include a caption, thumbnail, and other video-specific attributes."
    [⟨"dialog_id", .int, none⟩, ⟨"video_path", .str, none⟩,
     ⟨"caption", .optStr, some .pyNone⟩, ⟨"thumbnail", .optStr, some .pyNone⟩,
     ⟨"duration", .optInt, some .pyNone⟩, ⟨"width", .optInt, some .pyNone⟩,
     ⟨"height", .optInt, some .pyNone⟩, ⟨"supports_streaming", .bool, some (.bool true)⟩,
     ⟨"silent", .bool, some (.bool false)⟩, ⟨"reply_to", .optInt, some .pyNone⟩]

def sendVoiceClass : PyClass :=
  toolClass "SendVoice"
    "Send a voice message to a chat.\n\nAccepts a local file path or URL to an audio file.\nThe file will be sent as a voice message (round message format).\nSupports common audio formats like mp3, ogg, m4a."
    [⟨"dialog_id", .int, none⟩, ⟨"voice_path", .str, none⟩,
     ⟨"caption", .optStr, some .pyNone⟩, ⟨"silent", .bool, some (.bool false)⟩,
     ⟨"reply_to", .optInt, some .pyNone⟩]

def setChatPermissionsClass : PyClass :=
  toolClass "SetChatPermissions"
    "Set default permissions for all members in a chat.\n\nUpdates the default permissions for non-admin members in a group or channel.\nPermissions not specified will retain their current values."
    [⟨"chat_id", .int, none⟩, ⟨"send_messages", .optBool, some .pyNone⟩,
     ⟨"send_media", .optBool, some .pyNone⟩, ⟨"send_stickers", .optBool, some .pyNone⟩,
     ⟨"send_gifs", .optBool, some .pyNone⟩, ⟨"send_games", .optBool, some .pyNone⟩,
     ⟨"send_inline", .optBool, some .pyNone⟩, ⟨"embed_links", .optBool, some .pyNone⟩,
     ⟨"send_polls", .optBool, some .pyNone⟩, ⟨"change_info", .optBool, some .pyNone⟩,
     ⟨"invite_users", .optBool, some .pyNone⟩, ⟨"pin_messages", .optBool, some .pyNone⟩]

def unpinMessageClass : PyClass :=
  toolClass "UnpinMessage"
    "Unpin a message from a chat.\n\nRequires the chat ID and optionally the specific message ID to unpin.\nIf no message ID is provided, all pinned messages will be unpinned."
    [⟨"dialog_id", .int, none⟩, ⟨"message_id", .optInt, some .pyNone⟩]

def updateChatInfoClass : PyClass :=
  toolClass "UpdateChatInfo"
    "Update a chat's basic information.\n\nChanges the title and/or description of a group or channel.\nAt least one of title or about must be provided."
    [⟨"chat_id", .int, none⟩, ⟨"title", .optStr, some .pyNone⟩,
     ⟨"about", .optStr, some .pyNone⟩]

def updateChatPhotoClass : PyClass :=
  toolClass "UpdateChatPhoto"
    "Update a chat's profile photo.\n\nChanges the profile photo of a group or channel.\nAccepts a local file path or URL to the new photo."
    [⟨"chat_id", .int, none⟩, ⟨"photo_path", .str, none⟩]

def uploadMediaClass : PyClass :=
  toolClass "UploadMedia"
    "Upload media to Telegram servers without sending it to any chat.\n\nThis is useful when you need to reuse the same media file multiple times,\nas it prevents uploading the same file repeatedly.\nReturns the file ID that can be used in other operations."
    [⟨"file_path", .str, none⟩, ⟨"file_name", .optStr, some .pyNone⟩,
     ⟨"progress_callback", .bool, some (.bool true)⟩]

/-- All classes visible at module scope in `tools.py`, in the order
returned by `inspect.getmembers` (sorted alphabetically by name): the 31
`ToolArgs` subclasses, the imported classes, and `ToolArgs` itself. -/
def moduleClasses : List PyClass :=
  [importedClass "BaseModel", importedClass "ConfigDict",
   createChannelClass, createGroupClass, deleteMessageClass, downloadMediaClass,
   editMessageClass, importedClass "EmbeddedResource", forwardMessageClass,
   getBannedUsersClass, getChatInviteLinkClass, getChatMembersClass,
   getChatPermissionsClass, getMessageReactionsClass, importedClass "ImageContent",
   inviteToChatClass, leaveChatClass, listDialogsClass, listMessagesClass,
   manageUserClass, pinMessageClass, reactToMessageClass, replyToMessageClass,
   sendDocumentClass, sendGIFClass, sendMessageClass, sendPhotoClass,
   sendStickerClass, sendVideoClass, sendVoiceClass, setChatPermissionsClass,
   importedClass "TelegramClient", importedClass "TextContent",
   importedClass "Tool", toolArgsBase, unpinMessageClass, updateChatInfoClass,
   updateChatPhotoClass, uploadMediaClass]

/-- The genuine leaf operation classes: module classes passing the filter
`issubclass(tool_args, tools.ToolArgs) and tool_args != tools.ToolArgs`. -/
def leafToolClasses : List PyClass :=
  moduleClasses.filter fun c => c.isToolArgsSubclass && !c.isToolArgsItself

/-- An MCP `Tool` descriptor as built by `tool_description`: operation
name, description and input schema.  The input schema is modelled
structurally as the declared field list (names, annotations, defaults),
which is the information `model_json_schema()` renders. -/
structure Tool where
  name : String
  description : String
  inputSchema : List FieldSpec
deriving DecidableEq, Repr

/-- The source function `tool_description`: derive the descriptor of a
tool class from its name, docstring and pydantic fields. -/
def tool_description (args : PyClass) : Tool :=
  ⟨args.name, args.doc, args.fields⟩

/-- The pairs yielded by one full run of the generator body of
`enumerate_available_tools`: for each module class passing the
`issubclass`-and-not-`ToolArgs` filter, the pair
`(description.name, description)`. -/
def enumerateScan : List (String × Tool) :=
  leafToolClasses.map fun c => ((tool_description c).name, tool_description c)

/-- Python `dict` insertion: an existing key keeps its position and gets
the new value; a new key is appended. -/
def dictInsert (m : List (String × Tool)) (k : String) (v : Tool) : List (String × Tool) :=
  if m.any (fun p => p.1 == k) then
    m.map fun p => if p.1 == k then (k, v) else p
  else
    m ++ [(k, v)]

/-- Python `dict(pairs)`: fold the pairs into an insertion-ordered map. -/
def dictOfPairs (pairs : List (String × Tool)) : List (String × Tool) :=
  pairs.foldl (fun m p => dictInsert m p.1 p.2) []

/-- The memoisation state of the `@functools.cache` decorator applied to
the generator function `enumerate_available_tools`: `none` before the
first call; after the first call the cache holds the one generator object
ever created, represented by the list of items it has left to yield
(a consumed generator is `some []`). -/
def GenCache : Type := Option (List (String × Tool))

/-- One execution of the registry build step
`dict(enumerate_available_tools())`: a first call creates the generator,
and `dict` drains it of every scan item; any later call gets the cached
generator object back without re-running the scan, and `dict` drains only
the items that generator still has left. -/
def buildRegistry : GenCache → List (String × Tool) × GenCache
  | Option.none => (dictOfPairs enumerateScan, some [])
  | Option.some remaining => (dictOfPairs remaining, some [])

/-- The module-level registry `mapping: dict[str, Tool]` of `server.py`,
built by the first (and in the source the only) execution of
`dict(enumerate_available_tools())`. -/
def mapping : List (String × Tool) :=
  (buildRegistry Option.none).1

/-- Python `mapping.get(name)`: first (unique) binding of `name`. -/
def mappingGet (name : String) : Option Tool :=
  mapping.lookup name

/-- A prompt, as listed by the `list_prompts` capability (never actually
constructed by this server). -/
structure Prompt where
  name : String

/-- A resource, as listed by the `list_resources` capability (never
actually constructed by this server). -/
structure Resource where
  name : String

/-- A resource template, as listed by the `list_resource_templates`
capability (never actually constructed by this server). -/
structure ResourceTemplate where
  name : String

/-- The source handler `list_prompts`: always the empty list. -/
def list_prompts : List Prompt := []

/-- The source handler `list_resources`: always the empty list. -/
def list_resources : List Resource := []

/-- The source handler `list_resource_templates`: always the empty list. -/
def list_resource_templates : List ResourceTemplate := []

/-- The source handler `list_tools`: `list(mapping.values())`. -/
def list_tools : List Tool :=
  mapping.map Prod.snd

/-- A content item returned by a tool handler: text, image, or embedded
resource (`TextContent | ImageContent | EmbeddedResource`). -/
inductive Content where
  | text (s : String)
  | image (data mimeType : String)
  | resource (uri : String)
deriving DecidableEq, Repr

/-- The `tool_runner` handler table abstracted as an oracle: for the tool
class selected by single dispatch (identified by its name, since
construction always yields an instance of the class with that name) and
the constructed argument instance, the handler either returns its content
items or raises an exception with message `msg` (`str(e)`). -/
def Handlers : Type := String → Instance → Except String (List Content)

/-- The source function `tool_args`: look the class up by the descriptor
name in the module namespace (`sys.modules[__name__].__dict__[tool.name]`)
and construct it from the keyword arguments.  A name missing from the
module namespace raises `KeyError`. -/
def tool_args (tool : Tool) (kwargs : List (String × JsonValue)) : Except PyExc Instance :=
  match moduleClasses.find? (fun c => c.name == tool.name) with
  | Option.none => .error (.keyError tool.name)
  | Option.some c => constructClass c kwargs

/-- An error signalled by `call_tool`: the `TypeError` for a non-mapping
payload, the `ValueError` for a name absent from the registry, or the
`RuntimeError` that wraps any exception caught by the `try` block
(carrying the original exception). -/
inductive CallError where
  | invalidArgShape
  | unknownTool (name : String)
  | caughtException (e : PyExc)
deriving DecidableEq, Repr

/-- The message attached to an exception raised inside the `try` block.
For a pydantic `ValidationError`, `str(e)` lists each offending field name
with its error; the rendering here keeps exactly that information. -/
def PyExc.message : PyExc → String
  | .validationError tool errs =>
      let line := fun (p : String × ValKind) =>
        match p.2 with
        | .missing => p.1 ++ "\n  Field required"
        | .wrongType => p.1 ++ "\n  Input should be a valid type"
      toString errs.length ++ " validation error for " ++ tool ++ "\n"
        ++ String.intercalate "\n" (errs.map line)
  | .keyError name => name
  | .handlerError msg => msg

/-- The message of an error signalled by `call_tool`, matching the source
format strings: `"arguments must be dictionary"`, `"Unknown tool: "` plus
the name, and `"Caught Exception. Error: "` plus the caught message. -/
def CallError.message : CallError → String
  | .invalidArgShape => "arguments must be dictionary"
  | .unknownTool name => "Unknown tool: " ++ name
  | .caughtException e => "Caught Exception. Error: " ++ e.message

/-- The source dispatcher `call_tool`, with the handler table passed as an
oracle.  Raised exceptions are modelled as `Except.error`: the payload
shape is checked first, then the registry lookup, and everything the
`try` block raises (argument construction errors and handler failures) is
re-signalled as a wrapped `RuntimeError`. -/
def call_tool (h : Handlers) (name : String) (arguments : JsonValue) :
    Except CallError (List Content) :=
  match arguments with
  | .obj kvs =>
      match mappingGet name with
      | Option.none => .error (.unknownTool name)
      | Option.some tool =>
          match tool_args tool kvs with
          | .error e => .error (.caughtException e)
          | .ok args =>
              match h tool.name args with
              | .ok content => .ok content
              | .error msg => .error (.caughtException (.handlerError msg))
  | _ => .error .invalidArgShape

/-- The external Telegram backend as seen by the `send_message` handler:
entering the `async with create_client()` scope either succeeds or raises,
and `client.send_message` either returns the sent message's id or raises a
failure with message `str(e)`. -/
structure Backend where
  createClient : Except String Unit
  sendMessage : Int → String → Except String Int

/-- The registered handler `send_message` of `tools.py`: inside the client
scope, a successful backend send yields one success text item, and a
backend failure is caught and yielded as one text item beginning with the
fixed phrase `"Failed to send message: "`; only a failure to enter the
client scope itself propagates as an exception. -/
def send_message (b : Backend) (dialog_id : Int) (message : String) :
    Except String (List Content) :=
  match b.createClient with
  | .error e => .error e
  | .ok _ =>
      match b.sendMessage dialog_id message with
      | .ok mid =>
          .ok [.text ("Message sent successfully. Message ID: " ++ toString mid)]
      | .error e =>
          .ok [.text ("Failed to send message: " ++ e)]

/-- A request kind served by the protocol loop of `mcp.server.Server`,
routed to the handlers registered in `server.py`. -/
inductive Request where
  | listTools
  | listPrompts
  | listResources
  | listResourceTemplates
  | progress (token : String) (p : Int) (total : Option Int)
  | callTool (name : String) (arguments : JsonValue)

/-- A response emitted by the protocol loop: the handler result, or a
protocol-level error response when the dispatcher signalled an error. -/
inductive Response where
  | toolList (tools : List Tool)
  | promptList (prompts : List Prompt)
  | resourceList (resources : List Resource)
  | templateList (templates : List ResourceTemplate)
  | content (items : List Content)
  | error (e : CallError)
  | ack

/-- Routing of one inbound request to the registered handler, as the
`Server` framework does for the handlers declared in `server.py`.  A
dispatcher error becomes a protocol-level error response; it never
terminates the loop. -/
def handleRequest (h : Handlers) : Request → Response
  | .listTools => .toolList list_tools
  | .listPrompts => .promptList list_prompts
  | .listResources => .resourceList list_resources
  | .listResourceTemplates => .templateList list_resource_templates
  | .progress _ _ _ => .ack
  | .callTool name arguments =>
      match call_tool h name arguments with
      | .ok items => .content items
      | .error e => .error e

/-- The serving loop: requests are processed in order, one at a time,
each producing exactly one response. -/
def serve (h : Handlers) (reqs : List Request) : List Response :=
  reqs.map (handleRequest h)

/-- A handler oracle that succeeds with no content, used to instantiate
universally quantified theorems at a concrete handler table. -/
def trivialHandlers : Handlers := fun _ _ => .ok []

/-- A handler oracle whose every handler raises an exception with message
`"boom"`, exercising the exception-isolation path of `call_tool`. -/
def failingHandlers : Handlers := fun _ _ => .error "boom"

/-- A backend whose client scope opens fine but whose send operation
always fails, exercising the failure branch of `send_message`. -/
def failingBackend : Backend :=
  ⟨.ok (), fun _ _ => .error "FloodWaitError: A wait of 42 seconds is required"⟩

theorem mem_fieldErrors_cons (sp : FieldSpec) (specs : List FieldSpec)
    (kvs : List (String × JsonValue)) (a : String × ValKind)
    (h : a ∈ fieldErrors specs kvs) : a ∈ fieldErrors (sp :: specs) kvs := by
  simp only [fieldErrors]
  split
  · split
    · exact h
    · exact List.mem_cons_of_mem _ h
  · split
    · exact h
    · exact List.mem_cons_of_mem _ h

theorem mem_fieldErrors_missing (f : String) (ty : FieldType)
    (specs : List FieldSpec) (kvs : List (String × JsonValue))
    (hmem : (⟨f, ty, Option.none⟩ : FieldSpec) ∈ specs)
    (habs : kvs.lookup f = Option.none) :
    (f, ValKind.missing) ∈ fieldErrors specs kvs := by
  induction specs with
  | nil => cases hmem
  | cons sp rest ih =>
      rcases List.mem_cons.mp hmem with heq | hmem2
      · subst heq
        simp [fieldErrors, habs]
      · exact mem_fieldErrors_cons _ _ _ _ (ih hmem2)

theorem mem_fieldErrors_wrongType (f : String) (ty : FieldType)
    (d : Option FieldVal) (v : JsonValue)
    (specs : List FieldSpec) (kvs : List (String × JsonValue))
    (hmem : (⟨f, ty, d⟩ : FieldSpec) ∈ specs)
    (hlook : kvs.lookup f = Option.some v)
    (hdec : decodeField ty v = Option.none) :
    (f, ValKind.wrongType) ∈ fieldErrors specs kvs := by
  induction specs with
  | nil => cases hmem
  | cons sp rest ih =>
      rcases List.mem_cons.mp hmem with heq | hmem2
      · subst heq
        simp [fieldErrors, hlook, hdec]
      · exact mem_fieldErrors_cons _ _ _ _ (ih hmem2)

theorem constructClass_error_of_mem (c : PyClass) (kvs : List (String × JsonValue))
    (a : String × ValKind) (h : a ∈ fieldErrors c.fields kvs) :
    constructClass c kvs
      = .error (.validationError c.name (fieldErrors c.fields kvs)) := by
  unfold constructClass
  rcases he : fieldErrors c.fields kvs with _ | ⟨e, es⟩
  · rw [he] at h
    cases h
  · rfl

set_option maxRecDepth 100000 in
theorem mappingGet_leaf : ∀ c ∈ leafToolClasses,
    mappingGet c.name = Option.some (tool_description c) := by
  decide

set_option maxRecDepth 100000 in
theorem moduleFind_leaf : ∀ c ∈ leafToolClasses,
    moduleClasses.find? (fun c2 => c2.name == c.name) = Option.some c := by
  decide

set_option maxRecDepth 100000 in
/-- C1: the registry build step `dict(enumerate_available_tools())` is NOT
idempotent in the source: `@functools.cache` applied to a generator
function caches the generator object itself, so while a second call does
return the cached result without repeating the scan, the generator is
already exhausted and the dict built from the second call is empty — its
name set (empty) differs from the first call's 31 names. -/
theorem c1_second_build_is_empty :
    ((buildRegistry Option.none).1.map Prod.fst).length = 31 ∧
    (buildRegistry (buildRegistry Option.none).2).1 = [] ∧
    (buildRegistry (buildRegistry Option.none).2).1.map Prod.fst ≠
      (buildRegistry Option.none).1.map Prod.fst := by
  decide

/-- C2: for every operation name (known or unknown) and every argument
payload that is not a key-value mapping, `call_tool` signals the
invalid-argument-shape error (`TypeError("arguments must be dictionary")`)
before any registry lookup; the result does not depend on the handler
table, so no descriptor resolution, argument construction or handler
invocation occurs. -/
theorem c2_nonmapping_rejected (h : Handlers) (name : String)
    (arguments : JsonValue) (hshape : arguments.isObj = false) :
    call_tool h name arguments = .error .invalidArgShape := by
  cases arguments <;> simp_all [JsonValue.isObj, call_tool]

/-- Witness for C2 at a concrete input: a string payload for the
registered operation SendMessage is rejected with the shape error. -/
theorem c2_witness :
    call_tool trivialHandlers "SendMessage" (.str "oops")
      = .error .invalidArgShape :=
  c2_nonmapping_rejected trivialHandlers "SendMessage" (.str "oops") (by decide)

/-- C3: for every name absent from the registry and every mapping-shaped
payload, `call_tool` signals the unknown-operation error naming the
operation, as a controlled error result of the dispatcher; the result does
not depend on the handler table, so no argument construction and no
handler invocation occurs. -/
theorem c3_unknown_operation (h : Handlers) (name : String)
    (kvs : List (String × JsonValue)) (habs : mappingGet name = Option.none) :
    call_tool h name (.obj kvs) = .error (.unknownTool name) := by
  simp [call_tool, habs]

set_option maxRecDepth 100000 in
/-- Witness for C3 at the concrete input from the spec:
`invoke_operation("NoSuchTool", {})` yields Unknown-Operation. -/
theorem c3_witness :
    call_tool trivialHandlers "NoSuchTool" (.obj [])
      = .error (.unknownTool "NoSuchTool") :=
  c3_unknown_operation trivialHandlers "NoSuchTool" [] (by decide)

/-- C4: for every registered operation, an argument mapping that omits a
required field, or supplies a field whose value fails validation against
the field's annotation, makes `call_tool` reject the call with a wrapped
pydantic validation error naming the offending field; the result does not
depend on the handler table, so no handler is invoked. -/
theorem c4_argument_validation (h : Handlers) (c : PyClass)
    (hc : c ∈ leafToolClasses) (kvs : List (String × JsonValue))
    (f : String) (ty : FieldType)
    (hbad : ((⟨f, ty, Option.none⟩ : FieldSpec) ∈ c.fields
               ∧ kvs.lookup f = Option.none)
          ∨ ∃ d v, (⟨f, ty, d⟩ : FieldSpec) ∈ c.fields
               ∧ kvs.lookup f = Option.some v ∧ decodeField ty v = Option.none) :
    ∃ errs, call_tool h c.name (.obj kvs)
        = .error (.caughtException (.validationError c.name errs))
      ∧ ((f, ValKind.missing) ∈ errs ∨ (f, ValKind.wrongType) ∈ errs) := by
  have hmem : (f, ValKind.missing) ∈ fieldErrors c.fields kvs
            ∨ (f, ValKind.wrongType) ∈ fieldErrors c.fields kvs := by
    rcases hbad with ⟨hm, ha⟩ | ⟨d, v, hm, hl, hd⟩
    · exact Or.inl (mem_fieldErrors_missing f ty c.fields kvs hm ha)
    · exact Or.inr (mem_fieldErrors_wrongType f ty d v c.fields kvs hm hl hd)
  refine ⟨fieldErrors c.fields kvs, ?_, hmem⟩
  have hcons : constructClass c kvs
      = .error (.validationError c.name (fieldErrors c.fields kvs)) := by
    rcases hmem with hm | hm
    · exact constructClass_error_of_mem c kvs _ hm
    · exact constructClass_error_of_mem c kvs _ hm
  simp [call_tool, mappingGet_leaf c hc, tool_args, tool_description,
        moduleFind_leaf c hc, hcons]

set_option maxRecDepth 100000 in
/-- Witness for C4 at the concrete input from the spec:
`invoke_operation("SendMessage", dialog_id="not-an-int", message="hi")`
yields a validation error naming `dialog_id`. -/
theorem c4_witness :
    ∃ errs, call_tool trivialHandlers sendMessageClass.name
        (.obj [("dialog_id", .str "not-an-int"), ("message", .str "hi")])
        = .error (.caughtException (.validationError sendMessageClass.name errs))
      ∧ (("dialog_id", ValKind.missing) ∈ errs
          ∨ ("dialog_id", ValKind.wrongType) ∈ errs) :=
  c4_argument_validation trivialHandlers sendMessageClass (by decide)
    [("dialog_id", .str "not-an-int"), ("message", .str "hi")] "dialog_id" .int
    (Or.inr ⟨Option.none, .str "not-an-int", by decide, rfl, by decide⟩)

/-- C5: for every registered operation and every failure raised by its
handler during execution, `call_tool` catches the failure and re-signals
it as exactly one wrapped error whose message is the fixed wrapper phrase
followed by the original failure's message; the error constructor is the
wrapper (never the original exception), and a subsequent unrelated request
is served exactly as usual. -/
theorem c5_handler_failure_wrapped (h : Handlers) (name : String)
    (kvs : List (String × JsonValue)) (tool : Tool) (args : Instance)
    (m : String) (htool : mappingGet name = Option.some tool)
    (hargs : tool_args tool kvs = .ok args)
    (hfail : h tool.name args = .error m) :
    call_tool h name (.obj kvs) = .error (.caughtException (.handlerError m))
      ∧ (CallError.caughtException (.handlerError m)).message
          = "Caught Exception. Error: " ++ m
      ∧ ∀ req : Request, serve h [Request.callTool name (.obj kvs), req]
          = [.error (.caughtException (.handlerError m)), handleRequest h req] := by
  have hcall : call_tool h name (.obj kvs)
      = .error (.caughtException (.handlerError m)) := by
    simp [call_tool, htool, hargs, hfail]
  refine ⟨hcall, rfl, fun req => ?_⟩
  simp [serve, handleRequest, hcall]

set_option maxRecDepth 100000 in
/-- Witness for C5 at a concrete input: a SendMessage handler that raises
is re-signalled as the wrapped error, and a following list-tools request
is served normally. -/
theorem c5_witness :
    call_tool failingHandlers "SendMessage"
        (.obj [("dialog_id", .int 1), ("message", .str "hi")])
      = .error (.caughtException (.handlerError "boom")) :=
  (c5_handler_failure_wrapped failingHandlers "SendMessage"
    [("dialog_id", .int 1), ("message", .str "hi")]
    (tool_description sendMessageClass)
    [("dialog_id", FieldVal.int 1), ("message", FieldVal.str "hi")] "boom"
    (by decide) rfl rfl).1

set_option maxRecDepth 1000000 in
/-- C6: the list returned by `list_tools` contains, for every declared
leaf tool class, exactly one descriptor carrying that class's name, and
that descriptor's description is the class docstring and its input schema
is the class's declared fields; every descriptor in the list arises from
some leaf tool class, so no other descriptors appear. -/
theorem c6_registry_completeness :
    (∀ c ∈ leafToolClasses,
        list_tools.countP (fun d => d.name == c.name) = 1
      ∧ ∀ d ∈ list_tools, d.name = c.name →
          d.description = c.doc ∧ d.inputSchema = c.fields)
  ∧ ∀ d ∈ list_tools, ∃ c ∈ leafToolClasses, d = tool_description c := by
  decide

set_option maxRecDepth 100000 in
/-- Witness for C6 at a concrete class: ListDialogs has exactly one
descriptor in the tool list. -/
theorem c6_witness :
    list_tools.countP (fun d => d.name == listDialogsClass.name) = 1 :=
  (c6_registry_completeness.1 listDialogsClass (by decide)).1

/-- C7: constructing ListDialogs from an empty argument mapping succeeds
without requiring any field, and the constructed instance carries exactly
the declared defaults `unread=false, archived=false, ignore_pinned=false`;
consequently `call_tool` on ListDialogs with the empty mapping reaches the
handler with that default instance. -/
theorem c7_listdialogs_defaults :
    tool_args (tool_description listDialogsClass) []
      = .ok [("unread", FieldVal.bool false), ("archived", FieldVal.bool false),
             ("ignore_pinned", FieldVal.bool false)]
  ∧ ∀ h : Handlers, call_tool h "ListDialogs" (.obj [])
      = match h "ListDialogs"
          [("unread", FieldVal.bool false), ("archived", FieldVal.bool false),
           ("ignore_pinned", FieldVal.bool false)] with
        | .ok items => .ok items
        | .error m => .error (.caughtException (.handlerError m)) :=
  ⟨rfl, fun _ => rfl⟩

/-- C8: the handlers for prompts, resources and resource templates each
return the empty sequence, and in the serving loop these requests produce
empty-collection responses regardless of the handler table and of any
previously processed requests. -/
theorem c8_empty_capabilities (h : Handlers) (prior : List Request) :
    serve h (prior
        ++ [Request.listPrompts, Request.listResources, Request.listResourceTemplates])
      = serve h prior
        ++ [Response.promptList [], Response.resourceList [], Response.templateList []]
  ∧ list_prompts = [] ∧ list_resources = [] ∧ list_resource_templates = [] := by
  refine ⟨?_, rfl, rfl, rfl⟩
  simp [serve, handleRequest, list_prompts, list_resources, list_resource_templates]

/-- C9: when the client scope opens and the backend send operation fails,
the `send_message` handler does not raise: it returns a sequence of
exactly one text item whose text is the fixed failure phrase followed by
the backend failure's message. -/
theorem c9_send_failure_is_content (b : Backend) (dialog_id : Int)
    (message e : String) (hclient : b.createClient = .ok ())
    (hfail : b.sendMessage dialog_id message = .error e) :
    send_message b dialog_id message
      = .ok [Content.text ("Failed to send message: " ++ e)] := by
  simp [send_message, hclient, hfail]

/-- Witness for C9 at a concrete backend whose send always fails. -/
theorem c9_witness :
    send_message failingBackend 42 "hello"
      = .ok [Content.text ("Failed to send message: "
          ++ "FloodWaitError: A wait of 42 seconds is required")] :=
  c9_send_failure_is_content failingBackend 42 "hello"
    "FloodWaitError: A wait of 42 seconds is required" rfl rfl

theorem fieldErrors_ignore_extra (specs : List FieldSpec) (k : String)
    (v : JsonValue) (kvs : List (String × JsonValue))
    (hk : ∀ sp ∈ specs, sp.name ≠ k) :
    fieldErrors specs ((k, v) :: kvs) = fieldErrors specs kvs := by
  induction specs with
  | nil => rfl
  | cons sp rest ih =>
      have hne : sp.name ≠ k := hk sp (List.mem_cons_self _ _)
      have hbeq : (sp.name == k) = false := beq_eq_false_iff_ne.mpr hne
      have hlook : List.lookup sp.name ((k, v) :: kvs) = List.lookup sp.name kvs := by
        simp [List.lookup, hbeq]
      have ih2 := ih fun s hs => hk s (List.mem_cons_of_mem _ hs)
      simp only [fieldErrors, hlook, ih2]

theorem fieldValues_ignore_extra (specs : List FieldSpec) (k : String)
    (v : JsonValue) (kvs : List (String × JsonValue))
    (hk : ∀ sp ∈ specs, sp.name ≠ k) :
    fieldValues specs ((k, v) :: kvs) = fieldValues specs kvs := by
  induction specs with
  | nil => rfl
  | cons sp rest ih =>
      have hne : sp.name ≠ k := hk sp (List.mem_cons_self _ _)
      have hbeq : (sp.name == k) = false := beq_eq_false_iff_ne.mpr hne
      have hlook : List.lookup sp.name ((k, v) :: kvs) = List.lookup sp.name kvs := by
        simp [List.lookup, hbeq]
      have ih2 := ih fun s hs => hk s (List.mem_cons_of_mem _ hs)
      simp only [fieldValues, hlook, ih2]

/-- C10: for every registered operation, adding an extra keyword argument
whose key is not a declared field does not cause a validation error:
construction through `tool_args` behaves exactly as without it, so a
mapping that validly populates the declared fields still constructs, and
yields an instance equal to the one constructed without the extra key. -/
theorem c10_extra_keys_ignored (c : PyClass) (hc : c ∈ leafToolClasses)
    (k : String) (v : JsonValue) (kvs : List (String × JsonValue))
    (inst : Instance) (hk : ∀ sp ∈ c.fields, sp.name ≠ k)
    (hok : tool_args (tool_description c) kvs = .ok inst) :
    tool_args (tool_description c) ((k, v) :: kvs) = .ok inst := by
  have hfind : moduleClasses.find? (fun c2 => c2.name == (tool_description c).name)
      = Option.some c := moduleFind_leaf c hc
  have herr := fieldErrors_ignore_extra c.fields k v kvs hk
  have hval := fieldValues_ignore_extra c.fields k v kvs hk
  simp only [tool_args, hfind] at hok ⊢
  simp only [constructClass, herr, hval] at hok ⊢
  exact hok

set_option maxRecDepth 100000 in
/-- Witness for C10 at a concrete input: SendMessage constructed with an
extra undeclared key yields the same instance as without it. -/
theorem c10_witness :
    tool_args (tool_description sendMessageClass)
        [("extra_key", JsonValue.str "ignored"), ("dialog_id", JsonValue.int 1),
         ("message", JsonValue.str "hi")]
      = .ok [("dialog_id", FieldVal.int 1), ("message", FieldVal.str "hi")] :=
  c10_extra_keys_ignored sendMessageClass (by decide) "extra_key" (.str "ignored")
    [("dialog_id", .int 1), ("message", .str "hi")]
    [("dialog_id", FieldVal.int 1), ("message", FieldVal.str "hi")]
    (by decide) rfl

/-- Witness for C8 at a concrete handler table and empty prior request
list. -/
theorem c8_witness :
    serve trivialHandlers ([]
        ++ [Request.listPrompts, Request.listResources, Request.listResourceTemplates])
      = serve trivialHandlers []
        ++ [Response.promptList [], Response.resourceList [], Response.templateList []] :=
  (c8_empty_capabilities trivialHandlers []).1
